import Mathlib

/-!
Verification development for the piniBigAssFanMQTT backend.

The Python sources under src/backend are shallowly embedded:
mqtt_utils.py as pure integer functions, senseme_client.py as a state
machine over an explicit context (client state, a queue of pending UDP
receive outcomes, and the trace of datagrams sent), main.py's handlers
and poller as pure functions over that context plus the state cache,
and mqtt_client.py's publishing as a pure function from a snapshot to
the list of published messages. Machine integers are Lean Int with
Python floor division written explicitly; fallible reads are Option.
-/

/-- Python floor division a // b on arbitrary integers. -/
def pyDiv (a b : Int) : Int := Int.fdiv a b

namespace MqttUtils

/-- Embedding of mqtt_utils.percentage_to_raw_speed: (percentage * 7 + 50) // 100. -/
def percentage_to_raw_speed (percentage : Int) : Int := pyDiv (percentage * 7 + 50) 100

/-- Embedding of mqtt_utils.percentage_to_raw_light: (percentage * 16 + 50) // 100. -/
def percentage_to_raw_light (percentage : Int) : Int := pyDiv (percentage * 16 + 50) 100

/-- Embedding of mqtt_utils.raw_to_percentage_speed: (raw_speed * 100 + 3) // 7. -/
def raw_to_percentage_speed (raw_speed : Int) : Int := pyDiv (raw_speed * 100 + 3) 7

/-- Embedding of mqtt_utils.raw_to_percentage_light: (raw_level * 100 + 8) // 16. -/
def raw_to_percentage_light (raw_level : Int) : Int := pyDiv (raw_level * 100 + 8) 16

end MqttUtils

/-! String-level helpers shared by the protocol embedding.

Python string operations are modelled structurally on List Char so that all
definitions reduce in the kernel. -/

/-- Characters removed by Python str.strip() with no argument (the ASCII
whitespace actually occurring in this protocol; exotic unicode spaces are not
modelled). -/
def pyIsSpace (c : Char) : Bool :=
  c == ' ' || c == '\t' || c == '\n' || c == '\r' || c == '\x0b' || c == '\x0c'

/-- Python str.strip family: drop characters satisfying p from both ends. -/
def stripBy (p : Char → Bool) (cs : List Char) : List Char :=
  ((cs.dropWhile p).reverse.dropWhile p).reverse

/-- Embedding of Python s.strip() (whitespace both ends). -/
def pyStrStripWS (s : String) : String := String.mk (stripBy pyIsSpace s.toList)

/-- Membership test in the two-character strip set of Python s.strip with the paren pair. -/
def isParen (c : Char) : Bool := c == '(' || c == ')'

/-- Embedding of Python s.strip with the paren pair as argument, as used on protocol replies. -/
def pyStrStripParens (s : String) : String := String.mk (stripBy isParen s.toList)

/-- Embedding of Python s.split(sep) for a one-character separator: splits on every
occurrence, yielding empty fields for adjacent separators, and [""] on the
empty string. -/
def splitOnChar (sep : Char) : List Char → List (List Char)
  | [] => [[]]
  | c :: rest =>
    if c == sep then [] :: splitOnChar sep rest
    else
      match splitOnChar sep rest with
      | [] => [[c]]
      | g :: gs => (c :: g) :: gs

/-- Decimal value of a digit character. -/
def digitVal (c : Char) : Nat := c.toNat - 48

/-- Accumulator read of a digit run, most significant first. -/
def decValue (cs : List Char) : Nat := cs.foldl (fun a c => a * 10 + digitVal c) 0

/-- Parse a nonempty run of decimal digits; anything else is a failure. -/
def parseDigits (cs : List Char) : Option Nat :=
  if cs.isEmpty then none
  else if cs.all Char.isDigit then some (decValue cs) else none

/-- Leading-sign stage of Python int(str) after whitespace stripping. -/
def pyIntSigned : List Char → Option Int
  | [] => none
  | c :: rest =>
    if c == '-' then Option.map (fun n : Nat => -(n : Int)) (parseDigits rest)
    else if c == '+' then Option.map (fun n : Nat => (n : Int)) (parseDigits rest)
    else Option.map (fun n : Nat => (n : Int)) (parseDigits (c :: rest))

/-- Embedding of Python int(str) on a character list: strip whitespace, optional
sign, then a digit run (Python's underscore digit grouping is not modelled; no
claim depends on it). A failure is Python's ValueError. -/
def pyIntOfChars (cs : List Char) : Option Int := pyIntSigned (stripBy pyIsSpace cs)

/-- Embedding of Python int(str). -/
def pyInt (s : String) : Option Int := pyIntOfChars s.toList

/-- Decimal digit character for d in [0,9]. -/
def digitChar (d : Nat) : Char := Char.ofNat (48 + d)

/-- Fuelled digit expansion of a natural number, most significant first; fuel
n+1 always suffices for n. Structural in the fuel so that it reduces in the kernel. -/
def natDigitsAux : Nat → Nat → List Char
  | 0, _ => []
  | fuel + 1, n =>
    if n < 10 then [digitChar n]
    else natDigitsAux fuel (n / 10) ++ [digitChar (n % 10)]

/-- Decimal digits of a natural number. -/
def natDigits (n : Nat) : List Char := natDigitsAux (n + 1) n

/-- Embedding of Python str() on an integer (as produced by f-string formatting
of the numeric command arguments), at the character-list level. -/
def intStrChars (i : Int) : List Char :=
  if i < 0 then '-' :: natDigits i.natAbs else natDigits i.natAbs

/-- Embedding of Python str() on an integer. -/
def intStr (i : Int) : String := String.mk (intStrChars i)

namespace SenseMe

/-! Embedding of src/backend/senseme_client.py.

The UDP environment is modelled as an explicit context: the client object
state, a queue of pending recvfrom outcomes (none is a timeout or socket
exception), and the trace of datagrams sent so far. Each sendto appends to
the trace and each receive consumes one queued outcome. -/

/-- Mutable state of a SenseMeClient instance (fields of __init__ that the
protocol logic reads or writes; the ip/port/socket handles carry no logic). -/
structure SenseMeClient where
  connected : Bool
  fan_name : Option String
  last_light_level : Int
  deriving DecidableEq

/-- Embedding of SenseMeClient.__init__: disconnected, optional pre-configured
name, DEFAULT_LIGHT_LEVEL = 16. -/
def SenseMeClient.init (fan_name : Option String) : SenseMeClient :=
  { connected := false, fan_name := fan_name, last_light_level := 16 }

/-- Client state plus its UDP environment: queued receive outcomes and the
trace of datagrams sent. -/
structure Ctx where
  client : SenseMeClient
  replies : List (Option String)
  sent : List String
  deriving DecidableEq

/-- One socket.recvfrom: consume the next queued outcome; an exhausted queue
behaves as a timeout (none). -/
def Ctx.recv (ctx : Ctx) : Option String × Ctx :=
  match ctx.replies with
  | [] => (none, ctx)
  | r :: rs => (r, { ctx with replies := rs })

/-- One socket.sendto: append the datagram to the trace. -/
def Ctx.push (ctx : Ctx) (msg : String) : Ctx := { ctx with sent := ctx.sent ++ [msg] }

/-- Python truthiness of an optional string: None and the empty string are falsy. -/
def pyTruthy : Option String → Bool
  | none => false
  | some s => !s.toList.isEmpty

/-- Embedding of SenseMeClient.disconnect (socket close cannot fail observably here). -/
def disconnect (ctx : Ctx) : Ctx :=
  { ctx with client := { ctx.client with connected := false } }

/-- Embedding of SenseMeClient._discover_fan_name: send the discovery frame,
await one reply; a reply wrapped in parens yields its first field, anything
else (including a timeout) yields None. -/
def discover_fan_name (ctx : Ctx) : Option String × Ctx :=
  let c1 := ctx.push "<ALL;DEVICE;ID;GET>"
  let r := c1.recv
  match r.1 with
  | none => (none, r.2)
  | some data =>
    let response := pyStrStripWS data
    if response.toList.headD ' ' == '(' && response.toList.getLastD ' ' == ')' then
      let parts := (splitOnChar ';' (stripBy isParen response.toList)).map String.mk
      if parts.length ≥ 1 then (some (parts.getD 0 ""), r.2) else (none, r.2)
    else (none, r.2)

/-- Embedding of SenseMeClient.connect: UDP socket allocation cannot fail in
this model, so the call always returns True after marking the session
connected; a falsy fan name (None or empty, Python `if not self.fan_name`)
triggers one discovery exchange, falling back to the empty name. -/
def connect (ctx : Ctx) : Bool × Ctx :=
  let c1 : Ctx := { ctx with client := { ctx.client with connected := true } }
  if !pyTruthy c1.client.fan_name then
    let d := discover_fan_name c1
    match d.1 with
    | some nm => (true, { d.2 with client := { d.2.client with fan_name := some nm } })
    | none => (true, { d.2 with client := { d.2.client with fan_name := some "" } })
  else (true, c1)

/-- Outbound frame: Python f-string `<{self.fan_name};{command}>` (a None name
would print as "None"; unreachable after connect). -/
def mkFrame (name command : String) : String :=
  "<" ++ name ++ ";" ++ command ++ ">"

/-- Frame-send / receive / decode portion of send_command, once the session is
connected: build the frame, send it, await one reply; a receive failure
disconnects the session and yields None, a received datagram is
whitespace-stripped. -/
def send_core (command : String) (ctx : Ctx) : Option String × Ctx :=
  let c2 := ctx.push (mkFrame (ctx.client.fan_name.getD "None") command)
  let r := c2.recv
  match r.1 with
  | none => (none, disconnect r.2)
  | some data => (some (pyStrStripWS data), r.2)

/-- Embedding of SenseMeClient.send_command. The body runs under the per-session
exclusive lock self._lock; the lock discipline itself is modelled in the
LockSpec section, and here the whole body is one atomic function. Lazily
reconnects when not connected (connect cannot fail in this model, so the
early-None branch after a failed connect is unreachable). -/
def send_command (command : String) (ctx : Ctx) : Option String × Ctx :=
  let pre := if ctx.client.connected then (true, ctx) else connect ctx
  if pre.1 then send_core command pre.2 else (none, pre.2)

/-- Reply fields: strip the paren wrapping, split on the semicolon. -/
def replyParts (response : String) : List String :=
  (splitOnChar ';' (stripBy isParen response.toList)).map String.mk

/-- Value parse shared by get_fan_speed and get_light_level: int(parts[4])
guarded by len(parts) >= 5, with ValueError mapped to None. No range check is
applied. -/
def parseIntAt4 (response : String) : Option Int :=
  let parts := replyParts response
  if parts.length ≥ 5 then pyInt (parts.getD 4 "") else none

/-- Embedding of get_fan_name: returns the stored name, no device round trip. -/
def get_fan_name (ctx : Ctx) : Option String × Ctx := (ctx.client.fan_name, ctx)

/-- Embedding of get_fan_power: value is field 3 of the reply, as a string. -/
def get_fan_power (ctx : Ctx) : Option String × Ctx :=
  let r := send_command "FAN;PWR;GET;ACTUAL" ctx
  if pyTruthy r.1 then
    let parts := replyParts (r.1.getD "")
    (if parts.length ≥ 4 then some (parts.getD 3 "") else none, r.2)
  else (none, r.2)

/-- Embedding of set_fan_power: no validation, success is a non-None reply. -/
def set_fan_power (state : String) (ctx : Ctx) : Bool × Ctx :=
  let r := send_command ("FAN;PWR;" ++ state) ctx
  (r.1.isSome, r.2)

/-- Embedding of get_fan_speed: int value at reply field 4, unvalidated. -/
def get_fan_speed (ctx : Ctx) : Option Int × Ctx :=
  let r := send_command "FAN;SPD;GET;ACTUAL" ctx
  (if pyTruthy r.1 then parseIntAt4 (r.1.getD "") else none, r.2)

/-- Embedding of set_fan_speed: local range check 0..7 before any device I/O. -/
def set_fan_speed (speed : Int) (ctx : Ctx) : Bool × Ctx :=
  if 0 ≤ speed ∧ speed ≤ 7 then
    let r := send_command ("FAN;SPD;SET;" ++ intStr speed) ctx
    (r.1.isSome, r.2)
  else (false, ctx)

/-- Embedding of get_fan_whoosh: string value at reply field 4. -/
def get_fan_whoosh (ctx : Ctx) : Option String × Ctx :=
  let r := send_command "FAN;WHOOSH;GET;ACTUAL" ctx
  if pyTruthy r.1 then
    let parts := replyParts (r.1.getD "")
    (if parts.length ≥ 5 then some (parts.getD 4 "") else none, r.2)
  else (none, r.2)

/-- Embedding of set_fan_whoosh: no validation, success is a non-None reply. -/
def set_fan_whoosh (state : String) (ctx : Ctx) : Bool × Ctx :=
  let r := send_command ("FAN;WHOOSH;" ++ state) ctx
  (r.1.isSome, r.2)

/-- Embedding of get_light_level: int value at reply field 4, unvalidated. -/
def get_light_level (ctx : Ctx) : Option Int × Ctx :=
  let r := send_command "LIGHT;LEVEL;GET;ACTUAL" ctx
  (if pyTruthy r.1 then parseIntAt4 (r.1.getD "") else none, r.2)

/-- Embedding of set_light_level: local range check 0..16 before any device I/O. -/
def set_light_level (level : Int) (ctx : Ctx) : Bool × Ctx :=
  if 0 ≤ level ∧ level ≤ 16 then
    let r := send_command ("LIGHT;LEVEL;SET;" ++ intStr level) ctx
    (r.1.isSome, r.2)
  else (false, ctx)

/-- Embedding of get_light_power: derived from the level, ON iff level > 0. -/
def get_light_power (ctx : Ctx) : Option String × Ctx :=
  let r := get_light_level ctx
  (r.1.map (fun level => if level > 0 then "ON" else "OFF"), r.2)

/-- Embedding of set_light_power: OFF reads the current level, remembers it in
_last_light_level when it is not None and positive, then sets level 0; ON sets
the remembered level; any other token is rejected locally. -/
def set_light_power (state : String) (ctx : Ctx) : Bool × Ctx :=
  if state == "OFF" then
    let g := get_light_level ctx
    let c1 :=
      match g.1 with
      | some current_level =>
        if current_level > 0 then
          { g.2 with client := { g.2.client with last_light_level := current_level } }
        else g.2
      | none => g.2
    set_light_level 0 c1
  else if state == "ON" then
    set_light_level ctx.client.last_light_level ctx
  else (false, ctx)

end SenseMe

/-- Value stored in the state dictionaries: the getters produce strings or
integers. -/
inductive StateVal where
  | s (v : String)
  | i (n : Int)
  deriving DecidableEq

/-- Python dict with string keys as an insertion-ordered association list;
None values do occur (get_all_states stores failed reads as None). -/
abbrev Cache := List (String × Option StateVal)

namespace SenseMe

/-- Embedding of get_all_states: the six getters in source order, collected in
dict insertion order. -/
def get_all_states (ctx : Ctx) : Cache × Ctx :=
  let nm := get_fan_name ctx
  let pw := get_fan_power nm.2
  let sp := get_fan_speed pw.2
  let wh := get_fan_whoosh sp.2
  let lp := get_light_power wh.2
  let ll := get_light_level lp.2
  ([("name", nm.1.map StateVal.s), ("power", pw.1.map StateVal.s),
    ("speed", sp.1.map StateVal.i), ("whoosh", wh.1.map StateVal.s),
    ("light_power", lp.1.map StateVal.s), ("light_level", ll.1.map StateVal.i)],
   ll.2)

end SenseMe

namespace Mqtt

/-! Embedding of src/backend/mqtt_client.py (the publishing logic; broker
lifecycle and topic wiring carry no verified logic). -/

/-- Published payloads, kept structured: publish_state json-encodes non-string
values, null for Python None, and publish_all_states ends with the whole
snapshot as one JSON message. -/
inductive PubVal where
  | i (n : Int)
  | s (v : String)
  | null
  | snap (c : Cache)
  deriving DecidableEq

/-- Topic suffix and payload of one publish. -/
abbrev Pub := String × PubVal

/-- JSON payload of a state value. -/
def pubOfVal : StateVal → PubVal
  | StateVal.s v => PubVal.s v
  | StateVal.i n => PubVal.i n

/-- Embedding of MQTTPublisher.publish_state: a no-op returning False when not
connected, else one message on the topic. -/
def publish_state (connected : Bool) (key : String) (v : PubVal) : List Pub :=
  if connected then [(key, v)] else []

/-- Loop body of publish_all_states over states.items(): None values are
skipped; speed and light_level additionally publish a percentage conversion
under the plain key and the raw value under key_raw; a non-integer under those
keys would raise TypeError inside raw_to_percentage_* — the loop then aborts
(second component false) and nothing further is published. -/
def pubItems : List (String × Option StateVal) → List Pub × Bool
  | [] => ([], true)
  | (_, none) :: rest => pubItems rest
  | (k, some v) :: rest =>
    if k == "speed" then
      match v with
      | StateVal.i n =>
        let r := pubItems rest
        (("speed", PubVal.i (MqttUtils.raw_to_percentage_speed n)) ::
         ("speed_raw", PubVal.i n) :: r.1, r.2)
      | StateVal.s _ => ([], false)
    else if k == "light_level" then
      match v with
      | StateVal.i n =>
        let r := pubItems rest
        (("light_level", PubVal.i (MqttUtils.raw_to_percentage_light n)) ::
         ("light_level_raw", PubVal.i n) :: r.1, r.2)
      | StateVal.s _ => ([], false)
    else
      let r := pubItems rest
      ((k, pubOfVal v) :: r.1, r.2)

/-- Embedding of MQTTPublisher.publish_all_states: not connected is a no-op
returning False; otherwise the per-item loop, followed (when no exception
occurred) by one aggregate publish of the entire snapshot on "state". -/
def publish_all_states (connected : Bool) (states : Cache) : List Pub × Bool :=
  if connected then
    let r := pubItems states
    if r.2 then (r.1 ++ [("state", PubVal.snap states)], true) else (r.1, false)
  else ([], false)

end Mqtt

namespace Main

/-! Embedding of src/backend/main.py: the MQTT command handlers, the poll tick,
the read-back helper and the synchronous REST set-speed endpoint. The global
senseme_client is assumed initialized (the None guard merely logs); the
mqtt_publisher presence and connectedness are one boolean. -/

/-- Python dict item assignment d[k] = v on the ordered association list:
overwrite in place if the key exists, else append. (The dictionaries built by
this program never carry a duplicate key.) -/
def dictSet (c : Cache) (k : String) (v : Option StateVal) : Cache :=
  if c.any (fun p => p.1 == k) then
    c.map (fun p => if p.1 == k then (k, v) else p)
  else c ++ [(k, v)]

/-- Embedding of update_state_and_publish: run the getter (after the settle
sleep, which has no observable state here); on a None read-back leave the
cache alone, publish nothing and return None; otherwise patch the cache,
publish the value when MQTT is connected, and return it. -/
def update_state_and_publish (mqtt_connected : Bool) (cache : Cache) (state_key : String)
    (get_state_func : SenseMe.Ctx → Option StateVal × SenseMe.Ctx) (ctx : SenseMe.Ctx) :
    Cache × List Mqtt.Pub × Option StateVal × SenseMe.Ctx :=
  let g := get_state_func ctx
  match g.1 with
  | some v =>
    (dictSet cache state_key (some v),
     Mqtt.publish_state mqtt_connected state_key (Mqtt.pubOfVal v), some v, g.2)
  | none => (cache, [], none, g.2)

/-- get_fan_speed as a cache-valued getter, as passed to update_state_and_publish. -/
def getSpeedVal (ctx : SenseMe.Ctx) : Option StateVal × SenseMe.Ctx :=
  let r := SenseMe.get_fan_speed ctx
  (r.1.map StateVal.i, r.2)

/-- get_light_level as a cache-valued getter, as passed to update_state_and_publish. -/
def getLightLevelVal (ctx : SenseMe.Ctx) : Option StateVal × SenseMe.Ctx :=
  let r := SenseMe.get_light_level ctx
  (r.1.map StateVal.i, r.2)

/-- Embedding of handle_mqtt_fan_speed: parse int(payload) (ValueError logs and
returns), accept only 0 <= speed <= 7 (anything else logs a warning and
returns without touching the device), call set_fan_speed, and on success
read back and publish through update_state_and_publish. -/
def handle_mqtt_fan_speed (payload : String) (mqtt_connected : Bool) (cache : Cache)
    (ctx : SenseMe.Ctx) : Cache × List Mqtt.Pub × SenseMe.Ctx :=
  match pyInt payload with
  | none => (cache, [], ctx)
  | some speed =>
    if 0 ≤ speed ∧ speed ≤ 7 then
      let r := SenseMe.set_fan_speed speed ctx
      if r.1 then
        let u := update_state_and_publish mqtt_connected cache "speed" getSpeedVal r.2
        (u.1, u.2.1, u.2.2.2)
      else (cache, [], r.2)
    else (cache, [], ctx)

/-- Embedding of handle_mqtt_light_level: same shape as the speed handler with
range 0 <= level <= 16 and the light-level getter. -/
def handle_mqtt_light_level (payload : String) (mqtt_connected : Bool) (cache : Cache)
    (ctx : SenseMe.Ctx) : Cache × List Mqtt.Pub × SenseMe.Ctx :=
  match pyInt payload with
  | none => (cache, [], ctx)
  | some level =>
    if 0 ≤ level ∧ level ≤ 16 then
      let r := SenseMe.set_light_level level ctx
      if r.1 then
        let u := update_state_and_publish mqtt_connected cache "light_level" getLightLevelVal r.2
        (u.1, u.2.1, u.2.2.2)
      else (cache, [], r.2)
    else (cache, [], ctx)

/-- Embedding of one iteration of poll_fan_states with the client present: fetch
get_all_states, assign it to fan_states unconditionally, and when MQTT is
connected hand the fresh snapshot to publish_all_states. Returns the new cache,
the published messages and the evolved context. -/
def poll_tick (mqtt_connected : Bool) (ctx : SenseMe.Ctx) :
    Cache × List Mqtt.Pub × SenseMe.Ctx :=
  let g := SenseMe.get_all_states ctx
  (g.1, if mqtt_connected then (Mqtt.publish_all_states true g.1).1 else [], g.2)

/-- Body of the POST /api/fan/speed response. -/
structure SpeedResult where
  success : Bool
  speed : Int
  deriving DecidableEq

/-- Embedding of the POST /api/fan/speed endpoint body (request already
validated to 0..7 by the request model): on set_fan_speed success, read back
after the settle sleep, patch fan_states["speed"] with the read-back (possibly
None), publish it when MQTT is connected, and answer success together with
request.speed; on failure answer HTTP 500 (None). -/
def api_set_fan_speed (request_speed : Int) (mqtt_connected : Bool) (cache : Cache)
    (ctx : SenseMe.Ctx) :
    Option SpeedResult × Cache × List Mqtt.Pub × SenseMe.Ctx :=
  let r := SenseMe.set_fan_speed request_speed ctx
  if r.1 then
    let g := SenseMe.get_fan_speed r.2
    let cache2 := dictSet cache "speed" (g.1.map StateVal.i)
    let pubs := Mqtt.publish_state mqtt_connected "speed"
      (match g.1 with
       | some n => Mqtt.PubVal.i n
       | none => Mqtt.PubVal.null)
    (some { success := true, speed := request_speed }, cache2, pubs, g.2)
  else (none, cache, [], r.2)

end Main

namespace LockSpec

/-! Concurrency model for SenseMeClient.send_command.

The body of send_command (senseme_client.py lines 100-122) runs entirely
inside `with self._lock:`. Each concurrent caller (HTTP handler, MQTT
callback, poll loop) is a thread identified by a Nat; a thread is idle
outside the with-block, and while inside it passes through the program
points of the body: entered (holding the lock: the connected check, lazy
connect and frame build), sent (sendto issued, blocked in recvfrom), and
decoded (reply received or timed out, result decoded, about to leave the
with-block and release). threading.Lock grants acquisition only when free. -/

/-- Program point of one thread with respect to send_command's with-block. -/
inductive Phase where
  | idle
  | entered
  | sent
  | decoded
  deriving DecidableEq

/-- Global state: the lock holder (none = free) and every thread's program point. -/
structure LState where
  lock : Option Nat
  pc : Nat → Phase

/-- Pointwise update of the program-point map. -/
def setPc (pc : Nat → Phase) (t : Nat) (v : Phase) : Nat → Phase :=
  fun u => if u = t then v else pc u

/-- Interleaving semantics: one thread moves at a time. Acquisition requires
the lock to be free; the in-block transitions follow send_command's body; the
final step leaves the block, releasing the lock. -/
inductive Step : LState → LState → Prop where
  | acquire (s : LState) (t : Nat) (hfree : s.lock = none) (hidle : s.pc t = Phase.idle) :
      Step s { lock := some t, pc := setPc s.pc t Phase.entered }
  | send (s : LState) (t : Nat) (hpc : s.pc t = Phase.entered) :
      Step s { lock := s.lock, pc := setPc s.pc t Phase.sent }
  | recvDecode (s : LState) (t : Nat) (hpc : s.pc t = Phase.sent) :
      Step s { lock := s.lock, pc := setPc s.pc t Phase.decoded }
  | release (s : LState) (t : Nat) (hpc : s.pc t = Phase.decoded) :
      Step s { lock := none, pc := setPc s.pc t Phase.idle }

/-- Initial state: lock free, every thread idle. -/
def initL : LState := { lock := none, pc := fun _ => Phase.idle }

/-- States reachable from the initial state under any interleaving. -/
inductive Reach : LState → Prop where
  | init : Reach initL
  | step {s s2 : LState} (hs : Reach s) (hstep : Step s s2) : Reach s2

/-- A thread is inside send_command's with-block (anywhere between the
connected check and the decode) iff it is not idle. -/
def inCrit (p : Phase) : Prop := p ≠ Phase.idle

/-- Key invariant: any thread inside the with-block is the lock holder. -/
def HolderInv (s : LState) : Prop := ∀ t, inCrit (s.pc t) → s.lock = some t


end LockSpec

/-- Character usable inside one semicolon-separated reply field: not the
separator, not part of the paren wrapping, not whitespace. -/
def fieldChar (c : Char) : Bool := !(c == ';') && !isParen c && !pyIsSpace c

namespace SenseMe

/-- Public operations of the device session, for stating whole-session
invariants over arbitrary call sequences with arbitrary device replies. -/
inductive Op where
  | connectOp
  | disconnectOp
  | sendCmd (command : String)
  | getFanName
  | getFanPower
  | setFanPower (state : String)
  | getFanSpeed
  | setFanSpeed (speed : Int)
  | getFanWhoosh
  | setFanWhoosh (state : String)
  | getLightPower
  | setLightPower (state : String)
  | getLightLevel
  | setLightLevel (level : Int)
  | getAllStates
  deriving DecidableEq

/-- Effect of one public operation on the session context (call results
discarded; they do not feed back into the session state). -/
def runOp (ctx : Ctx) : Op → Ctx
  | Op.connectOp => (connect ctx).2
  | Op.disconnectOp => disconnect ctx
  | Op.sendCmd command => (send_command command ctx).2
  | Op.getFanName => (get_fan_name ctx).2
  | Op.getFanPower => (get_fan_power ctx).2
  | Op.setFanPower state => (set_fan_power state ctx).2
  | Op.getFanSpeed => (get_fan_speed ctx).2
  | Op.setFanSpeed speed => (set_fan_speed speed ctx).2
  | Op.getFanWhoosh => (get_fan_whoosh ctx).2
  | Op.setFanWhoosh state => (set_fan_whoosh state ctx).2
  | Op.getLightPower => (get_light_power ctx).2
  | Op.setLightPower state => (set_light_power state ctx).2
  | Op.getLightLevel => (get_light_level ctx).2
  | Op.setLightLevel level => (set_light_level level ctx).2
  | Op.getAllStates => (get_all_states ctx).2

end SenseMe

/-! Theorems. -/

theorem toList_mk (cs : List Char) : (String.mk cs).toList = cs := rfl

/-- Facts about a digit character for d in [0,9], proved by enumeration. -/
theorem digitChar_facts (d : Nat) (h : d < 10) :
    (digitChar d).isDigit = true ∧ digitVal (digitChar d) = d ∧
    pyIsSpace (digitChar d) = false ∧ (digitChar d == ';') = false ∧
    isParen (digitChar d) = false ∧ (digitChar d == '-') = false ∧
    (digitChar d == '+') = false := by
  interval_cases d <;> decide

/-- Equality test with a non-digit character fails on a digit character. -/
theorem beq_false_of_isDigit (c d : Char) (h : c.isDigit = true)
    (hd : d.isDigit = false) : (c == d) = false := by
  cases hb : c == d
  · rfl
  · exfalso
    rw [eq_of_beq hb] at h
    rw [h] at hd
    simp at hd

/-- A digit character is not a separator, paren, sign or space. -/
theorem isDigit_facts (c : Char) (h : c.isDigit = true) :
    pyIsSpace c = false ∧ (c == ';') = false ∧ isParen c = false ∧
    (c == '-') = false ∧ (c == '+') = false := by
  have k := fun (d : Char) (hd : d.isDigit = false) => beq_false_of_isDigit c d h hd
  refine ⟨?_, k _ (by decide), ?_, k _ (by decide), k _ (by decide)⟩
  · simp [pyIsSpace, k ' ' (by decide), k '\t' (by decide), k '\n' (by decide),
      k '\r' (by decide), k '\x0b' (by decide), k '\x0c' (by decide)]
  · simp [isParen, k '(' (by decide), k ')' (by decide)]

theorem decValue_append (xs : List Char) (c : Char) :
    decValue (xs ++ [c]) = decValue xs * 10 + digitVal c := by
  simp [decValue, List.foldl_append]

theorem natDigitsAux_spec (fuel : Nat) : ∀ n : Nat, n < fuel →
    natDigitsAux fuel n ≠ [] ∧ (natDigitsAux fuel n).all Char.isDigit = true ∧
    decValue (natDigitsAux fuel n) = n := by
  induction fuel with
  | zero => intro n hn; omega
  | succ fuel ih =>
    intro n hn
    by_cases h10 : n < 10
    · simp only [natDigitsAux, if_pos h10]
      obtain ⟨hd, hv, _⟩ := digitChar_facts n h10
      refine ⟨by simp, by simp [hd], ?_⟩
      simp [decValue, hv]
    · have hrec := ih (n / 10) (by omega)
      obtain ⟨hne, hall, hval⟩ := hrec
      simp only [natDigitsAux, if_neg h10]
      obtain ⟨hd, hv, _⟩ := digitChar_facts (n % 10) (by omega)
      refine ⟨by simp, ?_, ?_⟩
      · simp [List.all_append, hall, hd]
      · rw [decValue_append, hval, hv]
        omega

theorem natDigits_spec (n : Nat) :
    natDigits n ≠ [] ∧ (natDigits n).all Char.isDigit = true ∧
    decValue (natDigits n) = n :=
  natDigitsAux_spec (n + 1) n (by omega)

/-- Stripping is the identity on a list with no strippable character at either end;
here stated for lists none of whose characters are strippable. -/
theorem stripBy_of_all_not (p : Char → Bool) (cs : List Char)
    (h : ∀ c ∈ cs, p c = false) : stripBy p cs = cs := by
  have h1 : cs.dropWhile p = cs := by
    cases cs with
    | nil => rfl
    | cons c rest => rw [List.dropWhile_cons_of_neg (by simp [h c (by simp)])]
  have h2 : cs.reverse.dropWhile p = cs.reverse := by
    cases hrev : cs.reverse with
    | nil => rfl
    | cons c rest =>
      have hc : c ∈ cs := by
        rw [← List.mem_reverse, hrev]; simp
      rw [List.dropWhile_cons_of_neg (by simp [h c hc])]
  rw [stripBy, h1, h2, List.reverse_reverse]

theorem parseDigits_all (cs : List Char) (hne : cs ≠ [])
    (hall : cs.all Char.isDigit = true) : parseDigits cs = some (decValue cs) := by
  rw [parseDigits, if_neg (by simp [hne]), if_pos hall]

/-- Python int() parses back exactly what Python str() printed, at the
character-list level. -/
theorem pyIntOfChars_intStrChars (i : Int) : pyIntOfChars (intStrChars i) = some i := by
  obtain ⟨hne, hall, hval⟩ := natDigits_spec i.natAbs
  have hnospace : ∀ c ∈ natDigits i.natAbs, pyIsSpace c = false := by
    intro c hc
    exact (isDigit_facts c (by simpa using List.all_eq_true.1 hall c hc)).1
  have hparse : parseDigits (natDigits i.natAbs) = some i.natAbs := by
    rw [parseDigits_all _ hne hall, hval]
  by_cases hneg : i < 0
  · have hstrip : stripBy pyIsSpace ('-' :: natDigits i.natAbs) = '-' :: natDigits i.natAbs := by
      apply stripBy_of_all_not
      intro c hc
      rcases List.mem_cons.1 hc with h | h
      · subst h; decide
      · exact hnospace c h
    rw [intStrChars, if_pos hneg, pyIntOfChars, hstrip]
    simp only [pyIntSigned, hparse]
    simp only [show (('-' : Char) == '-') = true by decide, if_true, Option.map_some']
    rw [Option.some_inj]
    omega
  · have hstrip : stripBy pyIsSpace (natDigits i.natAbs) = natDigits i.natAbs :=
      stripBy_of_all_not _ _ hnospace
    rw [intStrChars, if_neg hneg, pyIntOfChars, hstrip]
    cases hd : natDigits i.natAbs with
    | nil => exact absurd hd hne
    | cons c rest =>
      have hcdig : c.isDigit = true := by
        have := List.all_eq_true.1 (hd ▸ hall) c (by simp)
        simpa using this
      obtain ⟨_, _, _, hminus, hplus⟩ := isDigit_facts c hcdig
      have hp2 : parseDigits (c :: rest) = some i.natAbs := hd ▸ hparse
      simp only [pyIntSigned, hminus, hplus, hp2, Bool.false_eq_true, if_false,
        Option.map_some']
      rw [Option.some_inj]
      omega

/-- Python int() parses back exactly what Python str() printed. -/
theorem pyInt_intStr (i : Int) : pyInt (intStr i) = some i := by
  rw [pyInt, intStr, toList_mk]
  exact pyIntOfChars_intStrChars i

theorem splitOnChar_sepFree (sep : Char) (cs : List Char)
    (h : ∀ c ∈ cs, (c == sep) = false) : splitOnChar sep cs = [cs] := by
  induction cs with
  | nil => rfl
  | cons c rest ih =>
    rw [splitOnChar, if_neg (by simp [h c (by simp)])]
    rw [ih (fun d hd => h d (by simp [hd]))]

theorem splitOnChar_append_sep (sep : Char) (xs ys : List Char)
    (h : ∀ c ∈ xs, (c == sep) = false) :
    splitOnChar sep (xs ++ sep :: ys) = xs :: splitOnChar sep ys := by
  induction xs with
  | nil =>
    rw [List.nil_append, splitOnChar, if_pos (by simp)]
  | cons x rest ih =>
    rw [List.cons_append, splitOnChar, if_neg (by simp [h x (by simp)])]
    rw [ih (fun d hd => h d (by simp [hd]))]

namespace LockSpec

theorem holderInv_init : HolderInv initL := by
  intro t h
  exact absurd rfl h

theorem holderInv_step {s s2 : LState} (hinv : HolderInv s) (hstep : Step s s2) :
    HolderInv s2 := by
  cases hstep with
  | acquire t hfree hidle =>
    intro u hu
    by_cases hut : u = t
    · subst hut; rfl
    · exfalso
      simp only [setPc, if_neg hut] at hu
      have := hinv u hu
      rw [hfree] at this
      cases this
  | send t hpc =>
    intro u hu
    by_cases hut : u = t
    · subst hut
      exact hinv u (by rw [hpc]; exact fun h => Phase.noConfusion h)
    · simp only [setPc, if_neg hut] at hu
      exact hinv u hu
  | recvDecode t hpc =>
    intro u hu
    by_cases hut : u = t
    · subst hut
      exact hinv u (by rw [hpc]; exact fun h => Phase.noConfusion h)
    · simp only [setPc, if_neg hut] at hu
      exact hinv u hu
  | release t hpc =>
    intro u hu
    by_cases hut : u = t
    · exfalso
      subst hut
      simp only [setPc, if_pos rfl] at hu
      exact hu rfl
    · exfalso
      simp only [setPc, if_neg hut] at hu
      have h1 := hinv u hu
      have h2 := hinv t (by rw [hpc]; exact fun h => Phase.noConfusion h)
      rw [h1] at h2
      exact hut (Option.some.inj h2)

theorem holderInv_reach {s : LState} (hs : Reach s) : HolderInv s := by
  induction hs with
  | init => exact holderInv_init
  | step hs hstep ih => exact holderInv_step ih hstep


end LockSpec


/-- C5: in every reachable interleaving of send_command callers, at most one
thread is anywhere inside the check-connected / connect / build / send /
receive / decode sequence at a time — the whole body runs under the one
per-session lock, so no send of one operation can interleave with the receive
of another. -/
theorem C5_send_command_serialized {s : LockSpec.LState} (hs : LockSpec.Reach s)
    (t1 t2 : Nat) (h1 : LockSpec.inCrit (s.pc t1)) (h2 : LockSpec.inCrit (s.pc t2)) :
    t1 = t2 := by
  have hinv := LockSpec.holderInv_reach hs
  have e1 := hinv t1 h1
  have e2 := hinv t2 h2
  rw [e1] at e2
  exact Option.some.inj e2

/-- Witness for C5: a concrete reachable state in which thread 0 has acquired
the lock and sent, applied to itself. -/
theorem C5_send_command_serialized_witness :
    LockSpec.Reach
      { lock := some 0,
        pc := LockSpec.setPc (fun _ => LockSpec.Phase.idle) 0 LockSpec.Phase.sent } ∧
    (0 : Nat) = 0 := by
  have h1 : LockSpec.Reach
      { lock := some 0,
        pc := LockSpec.setPc (fun _ => LockSpec.Phase.idle) 0 LockSpec.Phase.entered } :=
    LockSpec.Reach.step LockSpec.Reach.init
      (LockSpec.Step.acquire LockSpec.initL 0 rfl rfl)
  have h2 : LockSpec.Reach
      { lock := some 0,
        pc := LockSpec.setPc
          (LockSpec.setPc (fun _ => LockSpec.Phase.idle) 0 LockSpec.Phase.entered)
          0 LockSpec.Phase.sent } :=
    LockSpec.Reach.step h1
      (LockSpec.Step.send _ 0 (by simp [LockSpec.setPc]))
  have hpc : LockSpec.setPc
      (LockSpec.setPc (fun _ => LockSpec.Phase.idle) 0 LockSpec.Phase.entered)
      0 LockSpec.Phase.sent =
      LockSpec.setPc (fun _ => LockSpec.Phase.idle) 0 LockSpec.Phase.sent := by
    funext u
    simp only [LockSpec.setPc]
    by_cases hu : u = 0 <;> simp [hu]
  have h3 : LockSpec.Reach
      { lock := some 0,
        pc := LockSpec.setPc (fun _ => LockSpec.Phase.idle) 0 LockSpec.Phase.sent } := by
    rw [← hpc]
    exact h2
  refine ⟨h3, ?_⟩
  exact C5_send_command_serialized h3 0 0
    (by simp [LockSpec.inCrit, LockSpec.setPc])
    (by simp [LockSpec.inCrit, LockSpec.setPc])


/-- C9: for every integer percentage p in [0,100], percentage_to_raw_speed p lies in
[0,7] and percentage_to_raw_light p lies in [0,16]. -/
theorem C9_percent_to_raw_in_range (p : Int) (h0 : 0 ≤ p) (h100 : p ≤ 100) :
    (0 ≤ MqttUtils.percentage_to_raw_speed p ∧ MqttUtils.percentage_to_raw_speed p ≤ 7) ∧
    (0 ≤ MqttUtils.percentage_to_raw_light p ∧ MqttUtils.percentage_to_raw_light p ≤ 16) := by
  unfold MqttUtils.percentage_to_raw_speed MqttUtils.percentage_to_raw_light pyDiv
  rw [Int.fdiv_eq_ediv _ (by norm_num), Int.fdiv_eq_ediv _ (by norm_num)]
  omega

/-- Witness for C9 at the concrete percentage 50. -/
theorem C9_percent_to_raw_in_range_witness :
    ((0 : Int) ≤ 50 ∧ (50 : Int) ≤ 100) ∧
    ((0 ≤ MqttUtils.percentage_to_raw_speed 50 ∧ MqttUtils.percentage_to_raw_speed 50 ≤ 7) ∧
     (0 ≤ MqttUtils.percentage_to_raw_light 50 ∧ MqttUtils.percentage_to_raw_light 50 ≤ 16)) :=
  ⟨⟨by decide, by decide⟩, C9_percent_to_raw_in_range 50 (by decide) (by decide)⟩

/-- C8 counterexample: the claim asserts some raw speed r in [0,7] fails the
round trip percentage_to_raw_speed (raw_to_percentage_speed r) = r; in fact no
such r exists — the composition is the identity on the whole raw range. -/
theorem C8_roundtrip_counterexample :
    ¬ ∃ r : Int, 0 ≤ r ∧ r ≤ 7 ∧
      MqttUtils.percentage_to_raw_speed (MqttUtils.raw_to_percentage_speed r) ≠ r := by
  rintro ⟨r, h0, h7, hne⟩
  interval_cases r <;> exact hne (by decide)

/-- C8 amended: the raw-to-percent then percent-to-raw composition for fan speed
is exactly the identity on [0,7]; the conversions still fail to be mutual
inverses in the other direction, e.g. percent 50 maps to raw 4 which maps back
to percent 57. -/
theorem C8_roundtrip_amended :
    (∀ r : Int, 0 ≤ r → r ≤ 7 →
      MqttUtils.percentage_to_raw_speed (MqttUtils.raw_to_percentage_speed r) = r) ∧
    MqttUtils.raw_to_percentage_speed (MqttUtils.percentage_to_raw_speed 50) ≠ 50 := by
  constructor
  · intro r h0 h7
    interval_cases r <;> decide
  · decide

/-- Witness for the amended C8 at the concrete raw speed 4. -/
theorem C8_roundtrip_amended_witness :
    MqttUtils.percentage_to_raw_speed (MqttUtils.raw_to_percentage_speed 4) = 4 :=
  C8_roundtrip_amended.1 4 (by decide) (by decide)

namespace SenseMe

theorem connect_truthy (cl : SenseMeClient) (reps : List (Option String))
    (snt : List String) (hname : pyTruthy cl.fan_name = true) :
    connect ⟨cl, reps, snt⟩ = (true, ⟨{ cl with connected := true }, reps, snt⟩) := by
  simp [connect, hname]

theorem connect_fst (ctx : Ctx) : (connect ctx).1 = true := by
  simp only [connect]
  split
  · split <;> rfl
  · rfl

theorem discover_client_eq (ctx : Ctx) :
    (discover_fan_name ctx).2.client = ctx.client := by
  simp only [discover_fan_name, Ctx.push, Ctx.recv]
  rcases hrep : ctx.replies with _ | ⟨r, rs⟩
  · simp [hrep]
  · rcases r with _ | data
    · simp [hrep]
    · simp only [hrep]
      split
      · split <;> rfl
      · rfl

theorem discover_sent_eq (ctx : Ctx) :
    (discover_fan_name ctx).2.sent = ctx.sent ++ ["<ALL;DEVICE;ID;GET>"] := by
  simp only [discover_fan_name, Ctx.push, Ctx.recv]
  rcases hrep : ctx.replies with _ | ⟨r, rs⟩
  · simp [hrep]
  · rcases r with _ | data
    · simp [hrep]
    · simp only [hrep]
      split
      · split <;> rfl
      · rfl

theorem connect_last (ctx : Ctx) :
    (connect ctx).2.client.last_light_level = ctx.client.last_light_level := by
  simp only [connect]
  split
  · split <;> simp [discover_client_eq]
  · rfl

theorem connect_sent_mono (ctx : Ctx) : ∃ t, (connect ctx).2.sent = ctx.sent ++ t := by
  simp only [connect]
  split
  · split <;> exact ⟨["<ALL;DEVICE;ID;GET>"], by simp [discover_sent_eq]⟩
  · exact ⟨[], by simp⟩

theorem send_core_nil (cmd : String) (cl : SenseMeClient) (snt : List String) :
    send_core cmd ⟨cl, [], snt⟩ =
      (none, ⟨{ cl with connected := false }, [],
        snt ++ [mkFrame (cl.fan_name.getD "None") cmd]⟩) := by
  simp [send_core, Ctx.push, Ctx.recv, disconnect]

theorem send_core_cons_none (cmd : String) (cl : SenseMeClient)
    (rs : List (Option String)) (snt : List String) :
    send_core cmd ⟨cl, none :: rs, snt⟩ =
      (none, ⟨{ cl with connected := false }, rs,
        snt ++ [mkFrame (cl.fan_name.getD "None") cmd]⟩) := by
  simp [send_core, Ctx.push, Ctx.recv, disconnect]

theorem send_core_cons_some (cmd data : String) (cl : SenseMeClient)
    (rs : List (Option String)) (snt : List String) :
    send_core cmd ⟨cl, some data :: rs, snt⟩ =
      (some (pyStrStripWS data),
        ⟨cl, rs, snt ++ [mkFrame (cl.fan_name.getD "None") cmd]⟩) := by
  simp [send_core, Ctx.push, Ctx.recv]

theorem send_command_eq (cmd : String) (ctx : Ctx) :
    send_command cmd ctx =
      if ctx.client.connected then send_core cmd ctx
      else send_core cmd (connect ctx).2 := by
  by_cases hc : ctx.client.connected
  · simp [send_command, hc]
  · simp [send_command, hc, connect_fst]

theorem send_core_last (cmd : String) (ctx : Ctx) :
    (send_core cmd ctx).2.client.last_light_level = ctx.client.last_light_level := by
  rcases ctx with ⟨cl, reps, snt⟩
  rcases reps with _ | ⟨r, rs⟩
  · rw [send_core_nil]
  · rcases r with _ | data
    · rw [send_core_cons_none]
    · rw [send_core_cons_some]

theorem send_core_sent (cmd : String) (ctx : Ctx) :
    (send_core cmd ctx).2.sent =
      ctx.sent ++ [mkFrame (ctx.client.fan_name.getD "None") cmd] := by
  rcases ctx with ⟨cl, reps, snt⟩
  rcases reps with _ | ⟨r, rs⟩
  · rw [send_core_nil]
  · rcases r with _ | data
    · rw [send_core_cons_none]
    · rw [send_core_cons_some]

theorem send_command_last (cmd : String) (ctx : Ctx) :
    (send_command cmd ctx).2.client.last_light_level = ctx.client.last_light_level := by
  rw [send_command_eq]
  split
  · rw [send_core_last]
  · rw [send_core_last, connect_last]

theorem send_command_sent_mono (cmd : String) (ctx : Ctx) :
    ∃ t, (send_command cmd ctx).2.sent = ctx.sent ++ t := by
  rw [send_command_eq]
  split
  · exact ⟨_, send_core_sent cmd ctx⟩
  · obtain ⟨t, ht⟩ := connect_sent_mono ctx
    refine ⟨t ++ [mkFrame ((connect ctx).2.client.fan_name.getD "None") cmd], ?_⟩
    rw [send_core_sent, ht, List.append_assoc]

theorem get_fan_power_last (ctx : Ctx) :
    (get_fan_power ctx).2.client.last_light_level = ctx.client.last_light_level := by
  simp only [get_fan_power]
  split <;> exact send_command_last _ _

theorem get_fan_speed_last (ctx : Ctx) :
    (get_fan_speed ctx).2.client.last_light_level = ctx.client.last_light_level := by
  simp only [get_fan_speed]
  exact send_command_last _ _

theorem get_fan_whoosh_last (ctx : Ctx) :
    (get_fan_whoosh ctx).2.client.last_light_level = ctx.client.last_light_level := by
  simp only [get_fan_whoosh]
  split <;> exact send_command_last _ _

theorem get_light_level_last (ctx : Ctx) :
    (get_light_level ctx).2.client.last_light_level = ctx.client.last_light_level := by
  simp only [get_light_level]
  exact send_command_last _ _

theorem get_light_power_last (ctx : Ctx) :
    (get_light_power ctx).2.client.last_light_level = ctx.client.last_light_level := by
  simp only [get_light_power]
  exact get_light_level_last _

theorem set_fan_power_last (state : String) (ctx : Ctx) :
    (set_fan_power state ctx).2.client.last_light_level = ctx.client.last_light_level := by
  simp only [set_fan_power]
  exact send_command_last _ _

theorem set_fan_speed_last (speed : Int) (ctx : Ctx) :
    (set_fan_speed speed ctx).2.client.last_light_level = ctx.client.last_light_level := by
  simp only [set_fan_speed]
  split
  · exact send_command_last _ _
  · rfl

theorem set_fan_whoosh_last (state : String) (ctx : Ctx) :
    (set_fan_whoosh state ctx).2.client.last_light_level = ctx.client.last_light_level := by
  simp only [set_fan_whoosh]
  exact send_command_last _ _

theorem set_light_level_last (level : Int) (ctx : Ctx) :
    (set_light_level level ctx).2.client.last_light_level = ctx.client.last_light_level := by
  simp only [set_light_level]
  split
  · exact send_command_last _ _
  · rfl

theorem get_all_states_last (ctx : Ctx) :
    (get_all_states ctx).2.client.last_light_level = ctx.client.last_light_level := by
  simp only [get_all_states, get_fan_name]
  rw [get_light_level_last, get_light_power_last, get_fan_whoosh_last,
    get_fan_speed_last, get_fan_power_last]

theorem set_light_power_pos (state : String) (ctx : Ctx)
    (h : 1 ≤ ctx.client.last_light_level) :
    1 ≤ (set_light_power state ctx).2.client.last_light_level := by
  simp only [set_light_power]
  split
  · rw [set_light_level_last]
    split
    · split
      · simp only []
        omega
      · rw [get_light_level_last]
        exact h
    · rw [get_light_level_last]
      exact h
  · split
    · rw [set_light_level_last]
      exact h
    · exact h

theorem runOp_last_pos (ctx : Ctx) (op : Op) (h : 1 ≤ ctx.client.last_light_level) :
    1 ≤ (runOp ctx op).client.last_light_level := by
  cases op with
  | connectOp => rw [runOp, connect_last]; exact h
  | disconnectOp => exact h
  | sendCmd command => rw [runOp, send_command_last]; exact h
  | getFanName => exact h
  | getFanPower => rw [runOp, get_fan_power_last]; exact h
  | setFanPower state => rw [runOp, set_fan_power_last]; exact h
  | getFanSpeed => rw [runOp, get_fan_speed_last]; exact h
  | setFanSpeed speed => rw [runOp, set_fan_speed_last]; exact h
  | getFanWhoosh => rw [runOp, get_fan_whoosh_last]; exact h
  | setFanWhoosh state => rw [runOp, set_fan_whoosh_last]; exact h
  | getLightPower => rw [runOp, get_light_power_last]; exact h
  | setLightPower state => exact set_light_power_pos state ctx h
  | getLightLevel => rw [runOp, get_light_level_last]; exact h
  | setLightLevel level => rw [runOp, set_light_level_last]; exact h
  | getAllStates => rw [runOp, get_all_states_last]; exact h

theorem runOps_last_pos (ops : List Op) : ∀ ctx : Ctx,
    1 ≤ ctx.client.last_light_level →
    1 ≤ (ops.foldl runOp ctx).client.last_light_level := by
  induction ops with
  | nil => intro ctx h; exact h
  | cons op rest ih =>
    intro ctx h
    exact ih _ (runOp_last_pos ctx op h)

end SenseMe

theorem dropWhile_of_all_not (p : Char → Bool) (xs : List Char)
    (h : ∀ c ∈ xs, p c = false) : xs.dropWhile p = xs := by
  cases xs with
  | nil => rfl
  | cons c cs => rw [List.dropWhile_cons_of_neg (by simp [h c (by simp)])]

/-- Python strip with the paren pair removes exactly the wrapping parens from a
reply whose interior contains none. -/
theorem stripParens_wrap (core : List Char) (hne : core ≠ [])
    (h : ∀ c ∈ core, isParen c = false) :
    stripBy isParen ('(' :: (core ++ [')'])) = core := by
  unfold stripBy
  rw [List.dropWhile_cons_of_pos (by decide)]
  have h1 : (core ++ [')']).dropWhile isParen = core ++ [')'] := by
    rcases core with _ | ⟨c, cs⟩
    · exact absurd rfl hne
    · rw [List.cons_append, List.dropWhile_cons_of_neg (by simp [h c (by simp)])]
  rw [h1, List.reverse_append]
  have h2 : ([')'] : List Char).reverse = [')'] := rfl
  rw [h2]
  rw [show ((([')'] : List Char)) ++ core.reverse).dropWhile isParen =
      (')' :: core.reverse).dropWhile isParen from rfl]
  rw [List.dropWhile_cons_of_pos (by decide)]
  rw [dropWhile_of_all_not _ _ (fun c hc => h c (List.mem_reverse.1 hc))]
  exact List.reverse_reverse core

theorem fieldChar_split (c : Char) (h : fieldChar c = true) :
    (c == ';') = false ∧ isParen c = false ∧ pyIsSpace c = false := by
  simp only [fieldChar, Bool.and_eq_true, Bool.not_eq_true'] at h
  exact ⟨h.1.1, h.1.2, h.2⟩

theorem intStrChars_fieldChar (n : Int) : ∀ c ∈ intStrChars n, fieldChar c = true := by
  intro c hc
  have hdig : ∀ d ∈ natDigits n.natAbs, fieldChar d = true := by
    intro d hd
    have hd2 : d.isDigit = true := by
      simpa using List.all_eq_true.1 (natDigits_spec n.natAbs).2.1 d hd
    obtain ⟨hsp, hsep, hpar, _, _⟩ := isDigit_facts d hd2
    simp [fieldChar, hsp, hsep, hpar]
  rw [intStrChars] at hc
  by_cases hneg : n < 0
  · rw [if_pos hneg] at hc
    rcases List.mem_cons.1 hc with rfl | hc2
    · decide
    · exact hdig c hc2
  · rw [if_neg hneg] at hc
    exact hdig c hc

/-- Characters of the full framed reply built around a printed integer: none is
whitespace, so Python's strip() leaves the datagram unchanged. -/
theorem reply_chars_nospace (f1 f2 f3 f4 : List Char) (n : Int)
    (h1 : f1.all fieldChar = true) (h2 : f2.all fieldChar = true)
    (h3 : f3.all fieldChar = true) (h4 : f4.all fieldChar = true) :
    ∀ c ∈ ('(' ::
      ((f1 ++ ';' :: (f2 ++ ';' :: (f3 ++ ';' :: (f4 ++ ';' :: intStrChars n)))) ++ [')'])),
      pyIsSpace c = false := by
  intro c hc
  have k1 := fun c hc => (fieldChar_split c (List.all_eq_true.1 h1 c hc)).2.2
  have k2 := fun c hc => (fieldChar_split c (List.all_eq_true.1 h2 c hc)).2.2
  have k3 := fun c hc => (fieldChar_split c (List.all_eq_true.1 h3 c hc)).2.2
  have k4 := fun c hc => (fieldChar_split c (List.all_eq_true.1 h4 c hc)).2.2
  have kn := fun c hc => (fieldChar_split c (intStrChars_fieldChar n c hc)).2.2
  simp only [List.mem_cons, List.mem_append, List.mem_singleton] at hc
  rcases hc with rfl | (h | rfl | h | rfl | h | rfl | h | rfl | h) | rfl | h0
  · decide
  · exact k1 c (by simpa using h)
  · decide
  · exact k2 c (by simpa using h)
  · decide
  · exact k3 c (by simpa using h)
  · decide
  · exact k4 c (by simpa using h)
  · decide
  · exact kn c (by simpa using h)
  · decide
  · exact absurd h0 (List.not_mem_nil c)

/-- Reply-field parse of a framed reply whose fifth field is a printed integer:
the getter-side parse recovers exactly that integer. -/
theorem parseIntAt4_mk (f1 f2 f3 f4 : List Char) (n : Int)
    (h1 : f1.all fieldChar = true) (h2 : f2.all fieldChar = true)
    (h3 : f3.all fieldChar = true) (h4 : f4.all fieldChar = true) :
    SenseMe.parseIntAt4 (String.mk ('(' ::
      ((f1 ++ ';' :: (f2 ++ ';' :: (f3 ++ ';' :: (f4 ++ ';' :: intStrChars n)))) ++ [')']))) =
      some n := by
  have hcorene : (f1 ++ ';' :: (f2 ++ ';' :: (f3 ++ ';' :: (f4 ++ ';' :: intStrChars n)))) ≠ [] := by
    cases f1 <;> simp
  have hnopar : ∀ c ∈ (f1 ++ ';' :: (f2 ++ ';' :: (f3 ++ ';' :: (f4 ++ ';' :: intStrChars n)))),
      isParen c = false := by
    intro c hc
    have k1 := fun c hc => (fieldChar_split c (List.all_eq_true.1 h1 c hc)).2.1
    have k2 := fun c hc => (fieldChar_split c (List.all_eq_true.1 h2 c hc)).2.1
    have k3 := fun c hc => (fieldChar_split c (List.all_eq_true.1 h3 c hc)).2.1
    have k4 := fun c hc => (fieldChar_split c (List.all_eq_true.1 h4 c hc)).2.1
    have kn := fun c hc => (fieldChar_split c (intStrChars_fieldChar n c hc)).2.1
    simp only [List.mem_append, List.mem_cons] at hc
    rcases hc with h | rfl | h | rfl | h | rfl | h | rfl | h
    · exact k1 c (by simpa using h)
    · decide
    · exact k2 c (by simpa using h)
    · decide
    · exact k3 c (by simpa using h)
    · decide
    · exact k4 c (by simpa using h)
    · decide
    · exact kn c (by simpa using h)
  have hsplit : splitOnChar ';'
      (f1 ++ ';' :: (f2 ++ ';' :: (f3 ++ ';' :: (f4 ++ ';' :: intStrChars n)))) =
      [f1, f2, f3, f4, intStrChars n] := by
    have w1 := fun c hc => (fieldChar_split c (List.all_eq_true.1 h1 c hc)).1
    have w2 := fun c hc => (fieldChar_split c (List.all_eq_true.1 h2 c hc)).1
    have w3 := fun c hc => (fieldChar_split c (List.all_eq_true.1 h3 c hc)).1
    have w4 := fun c hc => (fieldChar_split c (List.all_eq_true.1 h4 c hc)).1
    have wn := fun c hc => (fieldChar_split c (intStrChars_fieldChar n c hc)).1
    rw [splitOnChar_append_sep _ _ _ w1, splitOnChar_append_sep _ _ _ w2,
      splitOnChar_append_sep _ _ _ w3, splitOnChar_append_sep _ _ _ w4,
      splitOnChar_sepFree _ _ wn]
  rw [SenseMe.parseIntAt4, SenseMe.replyParts, toList_mk,
    stripParens_wrap _ hcorene hnopar, hsplit]
  simp only [List.map_cons, List.map_nil]
  rw [if_pos (by simp)]
  show pyInt (String.mk (intStrChars n)) = some n
  rw [pyInt, toList_mk]
  exact pyIntOfChars_intStrChars n

theorem reply_strip_ws (cs : List Char) (h : ∀ c ∈ cs, pyIsSpace c = false) :
    pyStrStripWS (String.mk cs) = String.mk cs := by
  rw [pyStrStripWS, toList_mk, stripBy_of_all_not _ _ h]

/-- C7 amended: LightMemory (_last_light_level) starts at the default 16 and
stays a positive integer (never 0 or negative) under every operation sequence
and arbitrary device replies; the claimed upper bound of 16 does not hold (see
the counterexample), because set_light_power caches whatever positive level
the unvalidated getter reports. -/
theorem C7_light_memory_positive (fan_name : Option String)
    (replies : List (Option String)) (ops : List SenseMe.Op) :
    (SenseMe.SenseMeClient.init fan_name).last_light_level = 16 ∧
    1 ≤ (ops.foldl SenseMe.runOp
        ⟨SenseMe.SenseMeClient.init fan_name, replies, []⟩).client.last_light_level := by
  refine ⟨rfl, SenseMe.runOps_last_pos ops _ ?_⟩
  show (1 : Int) ≤ 16
  decide

/-- C7 counterexample: from the initial session, one set_light_power "OFF" call
during which the device reports level 100 leaves _last_light_level = 100,
outside the claimed range [1,16]. -/
theorem C7_light_memory_counterexample :
    ([SenseMe.Op.setLightPower "OFF"].foldl SenseMe.runOp
        ⟨SenseMe.SenseMeClient.init (some "FAN"),
         [some "(FAN;LIGHT;LEVEL;ACTUAL;100)", some "(FAN;LIGHT;LEVEL;SET;0)"],
         []⟩).client.last_light_level = 100 ∧
    ¬ ((100 : Int) ≤ 16) := by
  decide

/-- C2 counterexample: the device replying 99 in the value field makes
get_fan_speed return 99 (outside [0,7]) and get_light_level return 99
(outside [0,16]) — the getters apply no range validation. -/
theorem C2_getter_range_counterexample :
    (SenseMe.get_fan_speed
      ⟨⟨true, some "FAN", 16⟩, [some "(FAN;FAN;SPD;ACTUAL;99)"], []⟩).1 = some 99 ∧
    ¬ ((99 : Int) ≤ 7) ∧
    (SenseMe.get_light_level
      ⟨⟨true, some "FAN", 16⟩, [some "(FAN;LIGHT;LEVEL;ACTUAL;99)"], []⟩).1 = some 99 ∧
    ¬ ((99 : Int) ≤ 16) := by
  decide

/-- C2 amended: each getter returns either absent or exactly the integer the
device printed in the value field of the reply — any integer n, with no range
validation, so out-of-range raw values are returned (and hence cached by the
callers). -/
theorem C2_getters_amended (n : Int) :
    (SenseMe.get_fan_speed
      ⟨⟨true, some "FAN", 16⟩,
       [some (String.mk ('(' ::
         (("FAN".toList ++ ';' :: ("FAN".toList ++ ';' :: ("SPD".toList ++ ';' ::
           ("ACTUAL".toList ++ ';' :: intStrChars n)))) ++ [')'])))],
       []⟩).1 = some n ∧
    (SenseMe.get_light_level
      ⟨⟨true, some "FAN", 16⟩,
       [some (String.mk ('(' ::
         (("FAN".toList ++ ';' :: ("LIGHT".toList ++ ';' :: ("LEVEL".toList ++ ';' ::
           ("ACTUAL".toList ++ ';' :: intStrChars n)))) ++ [')'])))],
       []⟩).1 = some n := by
  have hFAN : ("FAN".toList).all fieldChar = true := by decide
  have hSPD : ("SPD".toList).all fieldChar = true := by decide
  have hACT : ("ACTUAL".toList).all fieldChar = true := by decide
  have hLIG : ("LIGHT".toList).all fieldChar = true := by decide
  have hLEV : ("LEVEL".toList).all fieldChar = true := by decide
  constructor
  · have hns := reply_chars_nospace "FAN".toList "FAN".toList "SPD".toList
      "ACTUAL".toList n hFAN hFAN hSPD hACT
    have hp := parseIntAt4_mk "FAN".toList "FAN".toList "SPD".toList
      "ACTUAL".toList n hFAN hFAN hSPD hACT
    have hsend := SenseMe.send_core_cons_some "FAN;SPD;GET;ACTUAL"
      (String.mk ('(' ::
        (("FAN".toList ++ ';' :: ("FAN".toList ++ ';' :: ("SPD".toList ++ ';' ::
          ("ACTUAL".toList ++ ';' :: intStrChars n)))) ++ [')'])))
      ⟨true, some "FAN", 16⟩ [] []
    simp only [SenseMe.get_fan_speed, SenseMe.send_command_eq, if_true]
    rw [hsend, reply_strip_ws _ hns]
    simpa [SenseMe.pyTruthy, toList_mk] using hp
  · have hns := reply_chars_nospace "FAN".toList "LIGHT".toList "LEVEL".toList
      "ACTUAL".toList n hFAN hLIG hLEV hACT
    have hp := parseIntAt4_mk "FAN".toList "LIGHT".toList "LEVEL".toList
      "ACTUAL".toList n hFAN hLIG hLEV hACT
    have hsend := SenseMe.send_core_cons_some "LIGHT;LEVEL;GET;ACTUAL"
      (String.mk ('(' ::
        (("FAN".toList ++ ';' :: ("LIGHT".toList ++ ';' :: ("LEVEL".toList ++ ';' ::
          ("ACTUAL".toList ++ ';' :: intStrChars n)))) ++ [')'])))
      ⟨true, some "FAN", 16⟩ [] []
    simp only [SenseMe.get_light_level, SenseMe.send_command_eq, if_true]
    rw [hsend, reply_strip_ws _ hns]
    simpa [SenseMe.pyTruthy, toList_mk] using hp

/-- C10: when the post-command read-back getter reports absent,
update_state_and_publish leaves the cache untouched for every key, publishes
nothing and returns absent; the stale cached value survives. -/
theorem C10_absent_readback_preserves_cache (mqtt_connected : Bool) (cache : Cache)
    (state_key : String) (get_state_func : SenseMe.Ctx → Option StateVal × SenseMe.Ctx)
    (ctx ctx2 : SenseMe.Ctx) (h : get_state_func ctx = (none, ctx2)) :
    Main.update_state_and_publish mqtt_connected cache state_key get_state_func ctx =
      (cache, [], none, ctx2) := by
  simp [Main.update_state_and_publish, h]

/-- Witness for C10: an unreachable device makes the speed read-back absent and
the stale cached speed 3 survives with no publish. -/
theorem C10_absent_readback_preserves_cache_witness :
    Main.getSpeedVal ⟨⟨true, some "FAN", 16⟩, [], []⟩ =
      (none, ⟨⟨false, some "FAN", 16⟩, [], ["<FAN;FAN;SPD;GET;ACTUAL>"]⟩) ∧
    Main.update_state_and_publish true [("speed", some (StateVal.i 3))] "speed"
        Main.getSpeedVal ⟨⟨true, some "FAN", 16⟩, [], []⟩ =
      ([("speed", some (StateVal.i 3))], [], none,
       ⟨⟨false, some "FAN", 16⟩, [], ["<FAN;FAN;SPD;GET;ACTUAL>"]⟩) :=
  ⟨by decide,
   C10_absent_readback_preserves_cache true [("speed", some (StateVal.i 3))] "speed"
     Main.getSpeedVal ⟨⟨true, some "FAN", 16⟩, [], []⟩
     ⟨⟨false, some "FAN", 16⟩, [], ["<FAN;FAN;SPD;GET;ACTUAL>"]⟩ (by decide)⟩

theorem parseIntAt4_toList_ne_empty (s : String) (n : Int)
    (h : SenseMe.parseIntAt4 s = some n) : s.toList.isEmpty = false := by
  rcases hs : s.toList with _ | ⟨c, cs⟩
  · exfalso
    rw [SenseMe.parseIntAt4, SenseMe.replyParts, hs] at h
    simp [stripBy, splitOnChar] at h
  · rfl

theorem set_light_power_off_eq (ctx : SenseMe.Ctx) :
    SenseMe.set_light_power "OFF" ctx =
      SenseMe.set_light_level 0
        (match (SenseMe.get_light_level ctx).1 with
         | some current_level =>
           if current_level > 0 then
             { (SenseMe.get_light_level ctx).2 with client :=
               { (SenseMe.get_light_level ctx).2.client with
                 last_light_level := current_level } }
           else (SenseMe.get_light_level ctx).2
         | none => (SenseMe.get_light_level ctx).2) := rfl

theorem set_light_power_on_eq (ctx : SenseMe.Ctx) :
    SenseMe.set_light_power "ON" ctx =
      SenseMe.set_light_level ctx.client.last_light_level ctx := rfl

/-- C6: when set_light_power OFF observes a level l with 0 < l <= 16, it caches
l in LightMemory and issues the level-0 set; a later set_light_power ON on any
session whose LightMemory still holds l issues exactly set_light_level l,
restoring the pre-OFF level. -/
theorem C6_light_off_on_restores (cl : SenseMe.SenseMeClient) (snt : List String)
    (w : String) (r2 : Option String) (rs : List (Option String)) (l : Int)
    (hconn : cl.connected = true)
    (hparse : SenseMe.parseIntAt4 (pyStrStripWS w) = some l)
    (hl0 : 0 < l) (hl16 : l ≤ 16) :
    ((SenseMe.set_light_power "OFF" ⟨cl, some w :: r2 :: rs, snt⟩).2.client.last_light_level = l ∧
     (SenseMe.set_light_power "OFF" ⟨cl, some w :: r2 :: rs, snt⟩).2.sent =
       snt ++ [SenseMe.mkFrame (cl.fan_name.getD "None") "LIGHT;LEVEL;GET;ACTUAL",
               SenseMe.mkFrame (cl.fan_name.getD "None") ("LIGHT;LEVEL;SET;" ++ intStr 0)]) ∧
    (∀ ctx2 : SenseMe.Ctx, ctx2.client.connected = true →
      ctx2.client.last_light_level = l →
      (SenseMe.set_light_power "ON" ctx2).2.sent =
        ctx2.sent ++ [SenseMe.mkFrame (ctx2.client.fan_name.getD "None")
          ("LIGHT;LEVEL;SET;" ++ intStr l)]) := by
  have hkey : SenseMe.get_light_level ⟨cl, some w :: r2 :: rs, snt⟩ =
      (some l, ⟨cl, r2 :: rs,
        snt ++ [SenseMe.mkFrame (cl.fan_name.getD "None") "LIGHT;LEVEL;GET;ACTUAL"]⟩) := by
    have hne : (pyStrStripWS w).toList.isEmpty = false :=
      parseIntAt4_toList_ne_empty _ _ hparse
    have hne2 : ¬(pyStrStripWS w).data = [] := by
      intro hd
      rw [show (pyStrStripWS w).toList = (pyStrStripWS w).data from rfl, hd] at hne
      simp at hne
    simp only [SenseMe.get_light_level, SenseMe.send_command_eq]
    rw [if_pos hconn, SenseMe.send_core_cons_some]
    simp [SenseMe.pyTruthy, hne, hparse, hne2]
  constructor
  · rw [set_light_power_off_eq, hkey]
    simp only [if_pos hl0]
    constructor
    · rw [SenseMe.set_light_level_last]
    · rw [SenseMe.set_light_level, if_pos (by omega : (0 : Int) ≤ 0 ∧ (0 : Int) ≤ 16)]
      show (SenseMe.send_command ("LIGHT;LEVEL;SET;" ++ intStr 0) _).2.sent = _
      rw [SenseMe.send_command_eq, if_pos (by exact hconn), SenseMe.send_core_sent]
      simp
  · intro ctx2 hc2 hl2
    rw [set_light_power_on_eq, hl2, SenseMe.set_light_level,
      if_pos (⟨by omega, hl16⟩ : (0 : Int) ≤ l ∧ l ≤ 16)]
    show (SenseMe.send_command ("LIGHT;LEVEL;SET;" ++ intStr l) ctx2).2.sent = _
    rw [SenseMe.send_command_eq, if_pos hc2, SenseMe.send_core_sent]

/-- Witness for C6 at level 10 with concrete replies: OFF caches 10 and a
subsequent ON issues the set-level-10 frame. -/
theorem C6_light_off_on_restores_witness :
    (SenseMe.set_light_power "OFF"
      ⟨⟨true, some "FAN", 16⟩,
       [some "(FAN;LIGHT;LEVEL;ACTUAL;10)", some "(ok)"], []⟩).2.client.last_light_level = 10 ∧
    (SenseMe.set_light_power "ON"
      ⟨⟨true, some "FAN", 10⟩, [some "(ok)"], []⟩).2.sent = ["<FAN;LIGHT;LEVEL;SET;10>"] := by
  have h := C6_light_off_on_restores ⟨true, some "FAN", 16⟩ [] "(FAN;LIGHT;LEVEL;ACTUAL;10)"
    (some "(ok)") [] 10 rfl (by decide) (by decide) (by decide)
  refine ⟨h.1.1, ?_⟩
  rw [h.2 ⟨⟨true, some "FAN", 10⟩, [some "(ok)"], []⟩ rfl rfl]
  decide

theorem update_state_and_publish_ctx (m : Bool) (c : Cache) (k : String)
    (f : SenseMe.Ctx → Option StateVal × SenseMe.Ctx) (x : SenseMe.Ctx) :
    (Main.update_state_and_publish m c k f x).2.2.2 = (f x).2 := by
  simp only [Main.update_state_and_publish]
  rcases h : (f x).1 with _ | v <;> simp [h]

theorem getSpeedVal_sent_mono (ctx : SenseMe.Ctx) :
    ∃ t, (Main.getSpeedVal ctx).2.sent = ctx.sent ++ t := by
  simp only [Main.getSpeedVal, SenseMe.get_fan_speed]
  exact SenseMe.send_command_sent_mono _ _

theorem getLightLevelVal_sent_mono (ctx : SenseMe.Ctx) :
    ∃ t, (Main.getLightLevelVal ctx).2.sent = ctx.sent ++ t := by
  simp only [Main.getLightLevelVal, SenseMe.get_light_level]
  exact SenseMe.send_command_sent_mono _ _

/-- C1 counterexample: the MQTT payload "50" (above both raw maxima) is not
reinterpreted as a percentage — percentage_to_raw_speed 50 = 4 and
percentage_to_raw_light 50 = 8, yet neither handler contacts the device at
all: no frame is sent, nothing changes. -/
theorem C1_handlers_counterexample :
    MqttUtils.percentage_to_raw_speed 50 = 4 ∧
    Main.handle_mqtt_fan_speed "50" true []
      ⟨⟨true, some "FAN", 16⟩,
       [some "(FAN;FAN;SPD;SET;4)", some "(FAN;FAN;SPD;ACTUAL;4)"], []⟩ =
      ([], [],
       ⟨⟨true, some "FAN", 16⟩,
        [some "(FAN;FAN;SPD;SET;4)", some "(FAN;FAN;SPD;ACTUAL;4)"], []⟩) ∧
    ¬ ("<FAN;FAN;SPD;SET;4>" ∈
        (Main.handle_mqtt_fan_speed "50" true []
          ⟨⟨true, some "FAN", 16⟩,
           [some "(FAN;FAN;SPD;SET;4)", some "(FAN;FAN;SPD;ACTUAL;4)"], []⟩).2.2.sent) ∧
    MqttUtils.percentage_to_raw_light 50 = 8 ∧
    Main.handle_mqtt_light_level "50" true []
      ⟨⟨true, some "FAN", 16⟩,
       [some "(FAN;LIGHT;LEVEL;SET;8)", some "(FAN;LIGHT;LEVEL;ACTUAL;8)"], []⟩ =
      ([], [],
       ⟨⟨true, some "FAN", 16⟩,
        [some "(FAN;LIGHT;LEVEL;SET;8)", some "(FAN;LIGHT;LEVEL;ACTUAL;8)"], []⟩) := by
  decide

/-- C1 amended: the asynchronous handlers apply no percentage reinterpretation:
an integer payload outside the raw range (in particular any value above the
raw maximum) is rejected with no device contact and no state change, while an
in-range payload is passed to the device setter as-is (the first frame sent is
the raw SET command carrying exactly the payload value). -/
theorem C1_handlers_amended (payload : String) (v : Int) (mqtt_connected : Bool)
    (cache : Cache) (cl : SenseMe.SenseMeClient) (reps : List (Option String))
    (snt : List String) (hconn : cl.connected = true) (hv : pyInt payload = some v) :
    (¬ (0 ≤ v ∧ v ≤ 7) →
      Main.handle_mqtt_fan_speed payload mqtt_connected cache ⟨cl, reps, snt⟩ =
        (cache, [], ⟨cl, reps, snt⟩)) ∧
    ((0 ≤ v ∧ v ≤ 7) → ∃ t,
      (Main.handle_mqtt_fan_speed payload mqtt_connected cache ⟨cl, reps, snt⟩).2.2.sent =
        snt ++ (SenseMe.mkFrame (cl.fan_name.getD "None") ("FAN;SPD;SET;" ++ intStr v) :: t)) ∧
    (¬ (0 ≤ v ∧ v ≤ 16) →
      Main.handle_mqtt_light_level payload mqtt_connected cache ⟨cl, reps, snt⟩ =
        (cache, [], ⟨cl, reps, snt⟩)) ∧
    ((0 ≤ v ∧ v ≤ 16) → ∃ t,
      (Main.handle_mqtt_light_level payload mqtt_connected cache ⟨cl, reps, snt⟩).2.2.sent =
        snt ++ (SenseMe.mkFrame (cl.fan_name.getD "None") ("LIGHT;LEVEL;SET;" ++ intStr v) :: t)) := by
  have hsetspd : ∀ ctx : SenseMe.Ctx, ctx.client.connected = true → (0 ≤ v ∧ v ≤ 7) →
      (SenseMe.set_fan_speed v ctx).2.sent =
        ctx.sent ++ [SenseMe.mkFrame (ctx.client.fan_name.getD "None") ("FAN;SPD;SET;" ++ intStr v)] := by
    intro ctx hc hr
    rw [SenseMe.set_fan_speed, if_pos hr]
    show (SenseMe.send_command ("FAN;SPD;SET;" ++ intStr v) ctx).2.sent = _
    rw [SenseMe.send_command_eq, if_pos hc, SenseMe.send_core_sent]
  have hsetlvl : ∀ ctx : SenseMe.Ctx, ctx.client.connected = true → (0 ≤ v ∧ v ≤ 16) →
      (SenseMe.set_light_level v ctx).2.sent =
        ctx.sent ++ [SenseMe.mkFrame (ctx.client.fan_name.getD "None") ("LIGHT;LEVEL;SET;" ++ intStr v)] := by
    intro ctx hc hr
    rw [SenseMe.set_light_level, if_pos hr]
    show (SenseMe.send_command ("LIGHT;LEVEL;SET;" ++ intStr v) ctx).2.sent = _
    rw [SenseMe.send_command_eq, if_pos hc, SenseMe.send_core_sent]
  refine ⟨?_, ?_, ?_, ?_⟩
  · intro h
    simp only [Main.handle_mqtt_fan_speed, hv]
    rw [if_neg h]
  · intro hr
    simp only [Main.handle_mqtt_fan_speed, hv]
    rw [if_pos hr]
    rcases hb : (SenseMe.set_fan_speed v ⟨cl, reps, snt⟩).1 with _ | _
    · rw [if_neg (by simp [hb])]
      exact ⟨[], by rw [hsetspd _ hconn hr]⟩
    · rw [if_pos (by simp [hb])]
      obtain ⟨t, ht⟩ := getSpeedVal_sent_mono (SenseMe.set_fan_speed v ⟨cl, reps, snt⟩).2
      refine ⟨t, ?_⟩
      simp only [update_state_and_publish_ctx]
      rw [ht, hsetspd _ hconn hr]
      simp
  · intro h
    simp only [Main.handle_mqtt_light_level, hv]
    rw [if_neg h]
  · intro hr
    simp only [Main.handle_mqtt_light_level, hv]
    rw [if_pos hr]
    rcases hb : (SenseMe.set_light_level v ⟨cl, reps, snt⟩).1 with _ | _
    · rw [if_neg (by simp [hb])]
      exact ⟨[], by rw [hsetlvl _ hconn hr]⟩
    · rw [if_pos (by simp [hb])]
      obtain ⟨t, ht⟩ := getLightLevelVal_sent_mono (SenseMe.set_light_level v ⟨cl, reps, snt⟩).2
      refine ⟨t, ?_⟩
      simp only [update_state_and_publish_ctx]
      rw [ht, hsetlvl _ hconn hr]
      simp
  

/-- Witness for the amended C1: payload "50" parses to 50, is out of the speed
range, and the handler is a complete no-op. -/
theorem C1_handlers_amended_witness :
    pyInt "50" = some 50 ∧
    Main.handle_mqtt_fan_speed "50" true [] ⟨⟨true, some "FAN", 16⟩, [], []⟩ =
      ([], [], ⟨⟨true, some "FAN", 16⟩, [], []⟩) :=
  ⟨by decide,
   (C1_handlers_amended "50" 50 true [] ⟨true, some "FAN", 16⟩ [] [] rfl (by decide)).1
     (by decide)⟩

/-- C4 counterexample: requesting speed 4 while the device settles at 3, the
endpoint caches and publishes the read-back 3 but answers success with the
requested 4 — not the authoritative read-back. -/
theorem C4_sync_result_counterexample :
    (Main.api_set_fan_speed 4 true []
      ⟨⟨true, some "FAN", 16⟩,
       [some "(FAN;FAN;SPD;SET;4)", some "(FAN;FAN;SPD;ACTUAL;3)"], []⟩).1 =
      some { success := true, speed := 4 } ∧
    (Main.api_set_fan_speed 4 true []
      ⟨⟨true, some "FAN", 16⟩,
       [some "(FAN;FAN;SPD;SET;4)", some "(FAN;FAN;SPD;ACTUAL;3)"], []⟩).2.1 =
      [("speed", some (StateVal.i 3))] ∧
    ¬ ((Main.api_set_fan_speed 4 true []
      ⟨⟨true, some "FAN", 16⟩,
       [some "(FAN;FAN;SPD;SET;4)", some "(FAN;FAN;SPD;ACTUAL;3)"], []⟩).1 =
      some { success := true, speed := 3 }) := by
  decide

/-- C4 amended: on a successful synchronous set, the response carries the
success boolean together with the value the caller requested; the read-back
after the settle delay goes only into the cache (and the MQTT publish), not
into the synchronous response. -/
theorem C4_sync_result_amended (request_speed : Int) (mqtt_connected : Bool)
    (cache : Cache) (ctx : SenseMe.Ctx)
    (hok : (SenseMe.set_fan_speed request_speed ctx).1 = true) :
    (Main.api_set_fan_speed request_speed mqtt_connected cache ctx).1 =
      some { success := true, speed := request_speed } ∧
    (Main.api_set_fan_speed request_speed mqtt_connected cache ctx).2.1 =
      Main.dictSet cache "speed"
        ((SenseMe.get_fan_speed (SenseMe.set_fan_speed request_speed ctx).2).1.map
          StateVal.i) := by
  constructor <;> simp [Main.api_set_fan_speed, hok]

/-- Witness for the amended C4 at request 4 with read-back 3. -/
theorem C4_sync_result_amended_witness :
    (SenseMe.set_fan_speed 4
      ⟨⟨true, some "FAN", 16⟩,
       [some "(FAN;FAN;SPD;SET;4)", some "(FAN;FAN;SPD;ACTUAL;3)"], []⟩).1 = true ∧
    (Main.api_set_fan_speed 4 true []
      ⟨⟨true, some "FAN", 16⟩,
       [some "(FAN;FAN;SPD;SET;4)", some "(FAN;FAN;SPD;ACTUAL;3)"], []⟩).1 =
      some { success := true, speed := 4 } :=
  ⟨by decide,
   (C4_sync_result_amended 4 true []
     ⟨⟨true, some "FAN", 16⟩,
      [some "(FAN;FAN;SPD;SET;4)", some "(FAN;FAN;SPD;ACTUAL;3)"], []⟩ (by decide)).1⟩

namespace SenseMe

theorem send_core_unreachable (cmd : String) (cl : SenseMeClient)
    (reps : List (Option String)) (snt : List String)
    (hrep : ∀ r ∈ reps, r = none) :
    ∃ reps2, (∀ r ∈ reps2, r = none) ∧
      send_core cmd ⟨cl, reps, snt⟩ =
        (none, ⟨{ cl with connected := false }, reps2,
          snt ++ [mkFrame (cl.fan_name.getD "None") cmd]⟩) := by
  rcases reps with _ | ⟨r, rs⟩
  · exact ⟨[], by simp, send_core_nil cmd cl snt⟩
  · have hr : r = none := hrep r (by simp)
    subst hr
    exact ⟨rs, fun x hx => hrep x (by simp [hx]), send_core_cons_none cmd cl rs snt⟩

theorem send_command_unreachable (cmd : String) (cl : SenseMeClient)
    (reps : List (Option String)) (snt : List String)
    (hname : pyTruthy cl.fan_name = true) (hrep : ∀ r ∈ reps, r = none) :
    ∃ reps2, (∀ r ∈ reps2, r = none) ∧
      send_command cmd ⟨cl, reps, snt⟩ =
        (none, ⟨{ cl with connected := false }, reps2,
          snt ++ [mkFrame (cl.fan_name.getD "None") cmd]⟩) := by
  by_cases hcn : cl.connected = true
  · obtain ⟨reps2, h2, he⟩ := send_core_unreachable cmd cl reps snt hrep
    refine ⟨reps2, h2, ?_⟩
    rw [send_command_eq, if_pos hcn, he]
  · obtain ⟨reps2, h2, he⟩ :=
      send_core_unreachable cmd { cl with connected := true } reps snt hrep
    refine ⟨reps2, h2, ?_⟩
    rw [send_command_eq, if_neg hcn, connect_truthy cl reps snt hname]
    exact he

theorem get_fan_power_unreachable (cl : SenseMeClient) (reps : List (Option String))
    (snt : List String) (hname : pyTruthy cl.fan_name = true)
    (hrep : ∀ r ∈ reps, r = none) :
    ∃ reps2 snt2, (∀ r ∈ reps2, r = none) ∧
      get_fan_power ⟨cl, reps, snt⟩ =
        (none, ⟨{ cl with connected := false }, reps2, snt2⟩) := by
  obtain ⟨reps2, h2, he⟩ := send_command_unreachable "FAN;PWR;GET;ACTUAL" cl reps snt hname hrep
  exact ⟨reps2, snt ++ [mkFrame (cl.fan_name.getD "None") "FAN;PWR;GET;ACTUAL"], h2,
    by simp [get_fan_power, he, pyTruthy]⟩

theorem get_fan_speed_unreachable (cl : SenseMeClient) (reps : List (Option String))
    (snt : List String) (hname : pyTruthy cl.fan_name = true)
    (hrep : ∀ r ∈ reps, r = none) :
    ∃ reps2 snt2, (∀ r ∈ reps2, r = none) ∧
      get_fan_speed ⟨cl, reps, snt⟩ =
        (none, ⟨{ cl with connected := false }, reps2, snt2⟩) := by
  obtain ⟨reps2, h2, he⟩ := send_command_unreachable "FAN;SPD;GET;ACTUAL" cl reps snt hname hrep
  exact ⟨reps2, snt ++ [mkFrame (cl.fan_name.getD "None") "FAN;SPD;GET;ACTUAL"], h2,
    by simp [get_fan_speed, he, pyTruthy]⟩

theorem get_fan_whoosh_unreachable (cl : SenseMeClient) (reps : List (Option String))
    (snt : List String) (hname : pyTruthy cl.fan_name = true)
    (hrep : ∀ r ∈ reps, r = none) :
    ∃ reps2 snt2, (∀ r ∈ reps2, r = none) ∧
      get_fan_whoosh ⟨cl, reps, snt⟩ =
        (none, ⟨{ cl with connected := false }, reps2, snt2⟩) := by
  obtain ⟨reps2, h2, he⟩ := send_command_unreachable "FAN;WHOOSH;GET;ACTUAL" cl reps snt hname hrep
  exact ⟨reps2, snt ++ [mkFrame (cl.fan_name.getD "None") "FAN;WHOOSH;GET;ACTUAL"], h2,
    by simp [get_fan_whoosh, he, pyTruthy]⟩

theorem get_light_level_unreachable (cl : SenseMeClient) (reps : List (Option String))
    (snt : List String) (hname : pyTruthy cl.fan_name = true)
    (hrep : ∀ r ∈ reps, r = none) :
    ∃ reps2 snt2, (∀ r ∈ reps2, r = none) ∧
      get_light_level ⟨cl, reps, snt⟩ =
        (none, ⟨{ cl with connected := false }, reps2, snt2⟩) := by
  obtain ⟨reps2, h2, he⟩ := send_command_unreachable "LIGHT;LEVEL;GET;ACTUAL" cl reps snt hname hrep
  exact ⟨reps2, snt ++ [mkFrame (cl.fan_name.getD "None") "LIGHT;LEVEL;GET;ACTUAL"], h2,
    by simp [get_light_level, he, pyTruthy]⟩

theorem get_light_power_unreachable (cl : SenseMeClient) (reps : List (Option String))
    (snt : List String) (hname : pyTruthy cl.fan_name = true)
    (hrep : ∀ r ∈ reps, r = none) :
    ∃ reps2 snt2, (∀ r ∈ reps2, r = none) ∧
      get_light_power ⟨cl, reps, snt⟩ =
        (none, ⟨{ cl with connected := false }, reps2, snt2⟩) := by
  obtain ⟨reps2, snt2, h2, he⟩ := get_light_level_unreachable cl reps snt hname hrep
  exact ⟨reps2, snt2, h2, by simp [get_light_power, he]⟩

theorem get_all_states_unreachable (cl : SenseMeClient) (reps : List (Option String))
    (snt : List String) (hname : pyTruthy cl.fan_name = true)
    (hrep : ∀ r ∈ reps, r = none) :
    ∃ ctx2 : Ctx, get_all_states ⟨cl, reps, snt⟩ =
      ([("name", cl.fan_name.map StateVal.s), ("power", none), ("speed", none),
        ("whoosh", none), ("light_power", none), ("light_level", none)], ctx2) := by
  obtain ⟨r1, s1, h1, e1⟩ := get_fan_power_unreachable cl reps snt hname hrep
  obtain ⟨r2, s2, h2, e2⟩ := get_fan_speed_unreachable { cl with connected := false } r1 s1 hname h1
  obtain ⟨r3, s3, h3, e3⟩ := get_fan_whoosh_unreachable { cl with connected := false } r2 s2 hname h2
  obtain ⟨r4, s4, h4, e4⟩ := get_light_power_unreachable { cl with connected := false } r3 s3 hname h3
  obtain ⟨r5, s5, h5, e5⟩ := get_light_level_unreachable { cl with connected := false } r4 s4 hname h4
  refine ⟨⟨{ cl with connected := false }, r5, s5⟩, ?_⟩
  simp [get_all_states, get_fan_name, e1, e2, e3, e4, e5]

end SenseMe

/-- C3 counterexample: with a previously full cache and the device unreachable
(every receive times out), the poll tick replaces the cache with an all-absent
snapshot (only the memory-served name survives) and still publishes the name
and the aggregate snapshot — the claim predicted an unchanged cache and no
publish. -/
theorem C3_unreachable_poll_counterexample :
    ¬ ((Main.poll_tick true ⟨⟨true, some "FAN", 16⟩, [], []⟩).1 =
        [("name", some (StateVal.s "FAN")), ("power", some (StateVal.s "ON")),
         ("speed", some (StateVal.i 3)), ("whoosh", some (StateVal.s "OFF")),
         ("light_power", some (StateVal.s "ON")), ("light_level", some (StateVal.i 10))] ∧
       (Main.poll_tick true ⟨⟨true, some "FAN", 16⟩, [], []⟩).2.1 = []) ∧
    (Main.poll_tick true ⟨⟨true, some "FAN", 16⟩, [], []⟩).1 =
      [("name", some (StateVal.s "FAN")), ("power", none), ("speed", none),
       ("whoosh", none), ("light_power", none), ("light_level", none)] ∧
    (Main.poll_tick true ⟨⟨true, some "FAN", 16⟩, [], []⟩).2.1 =
      [("name", Mqtt.PubVal.s "FAN"),
       ("state", Mqtt.PubVal.snap
         [("name", some (StateVal.s "FAN")), ("power", none), ("speed", none),
          ("whoosh", none), ("light_power", none), ("light_level", none)])] := by
  decide

/-- C3 amended: on a poll tick with the device unreachable (every receive fails)
the cache is unconditionally replaced by the fresh snapshot, in which every
device-read field is absent and only the memory-served name remains; with MQTT
connected the poller still publishes the name and the aggregate snapshot (the
per-field publishes of absent fields are skipped). -/
theorem C3_unreachable_poll_amended (cl : SenseMe.SenseMeClient)
    (reps : List (Option String)) (snt : List String) (mqtt_connected : Bool)
    (nm : String) (hnm : cl.fan_name = some nm) (hne : nm.toList.isEmpty = false)
    (hrep : ∀ r ∈ reps, r = none) :
    ∃ ctx2 : SenseMe.Ctx,
      Main.poll_tick mqtt_connected ⟨cl, reps, snt⟩ =
        ([("name", some (StateVal.s nm)), ("power", none), ("speed", none),
          ("whoosh", none), ("light_power", none), ("light_level", none)],
         (if mqtt_connected then
            [("name", Mqtt.PubVal.s nm),
             ("state", Mqtt.PubVal.snap
               [("name", some (StateVal.s nm)), ("power", none), ("speed", none),
                ("whoosh", none), ("light_power", none), ("light_level", none)])]
          else []),
         ctx2) := by
  have hname : SenseMe.pyTruthy cl.fan_name = true := by
    rw [hnm]
    have hne2 : ¬nm.data = [] := by
      intro hd
      rw [show nm.toList = nm.data from rfl, hd] at hne
      simp at hne
    simp [SenseMe.pyTruthy, hne2]
  obtain ⟨ctx2, hgas⟩ := SenseMe.get_all_states_unreachable cl reps snt hname hrep
  refine ⟨ctx2, ?_⟩
  rw [hnm] at hgas
  simp only [Main.poll_tick, hgas]
  rcases mqtt_connected with _ | _
  · simp
  · simp [Mqtt.publish_all_states, Mqtt.pubItems, Mqtt.pubOfVal]

/-- Witness for the amended C3: the concrete unreachable tick produces the
all-absent snapshot as the new cache. -/
theorem C3_unreachable_poll_amended_witness :
    (Main.poll_tick true ⟨⟨true, some "FAN", 16⟩, [], []⟩).1 =
      [("name", some (StateVal.s "FAN")), ("power", none), ("speed", none),
       ("whoosh", none), ("light_power", none), ("light_level", none)] := by
  obtain ⟨ctx2, h⟩ := C3_unreachable_poll_amended ⟨true, some "FAN", 16⟩ [] [] true "FAN"
    rfl (by decide) (by simp)
  rw [h]
